import Mathlib

/-!
# Verification of the scaffold artifact-assembly pipeline

Shallow embedding of the repository's build pipeline scripts:

* `scripts/merge_fat_archive.py` — merging dual-architecture static archives
  (namespace `MergeFat`);
* `scripts/embed_python.py` — content-addressed embedding of the Python
  stdlib and default tools into the target executable (namespace `EmbedPy`);
* `python/build.py` — object injection into static libraries and fat-binary
  assembly (namespace `PyBuild`).

File contents (bytes) are modelled as strings; the external SHA-256 digest
(`hashlib.sha256(...).hexdigest()[:16]`) is modelled as a function parameter
`Hs : String → String` applied to the exact byte stream the source feeds it,
and `Hc : Content → String` for single files.  External tools (GNU `ar`,
`zip`, `zipcopy`, `apelink`) are modelled at their interfaces: an invocation
either succeeds with its documented effect or fails with no effect, selected
by an explicit boolean parameter of the run.
-/

namespace EmbedPy

/-- Total lexicographic order on character lists by code point; models how
Python compares path strings (`sorted` over `Path` objects compares the
underlying path strings). -/
def lexLe : List Char → List Char → Bool
  | [], _ => true
  | _ :: _, [] => false
  | a :: as, b :: bs =>
    if a.toNat < b.toNat then true
    else if b.toNat < a.toNat then false
    else lexLe as bs

/-- Path-string comparison used by `sorted(directory.rglob("*"))`. -/
def pathLe (a b : String) : Bool := lexLe a.data b.data

/-- Stable insertion of an element into a sorted list. -/
def insertSorted (le : α → α → Bool) (x : α) : List α → List α
  | [] => [x]
  | y :: ys => if le x y then x :: y :: ys else y :: insertSorted le x ys

/-- Stable sort, modelling Python's `sorted`. -/
def sortBy (le : α → α → Bool) : List α → List α
  | [] => []
  | x :: xs => insertSorted le x (sortBy le xs)

/-- A directory tree is the list of its regular files, each a pair
(relative path, file bytes); the tree may be absent (`Option`). -/
abbrev DirTree := List (String × String)

/-- The exact byte stream `compute_dir_hash` feeds to the cumulative SHA-256
hasher: for each file in sorted relative-path order, the relative path
followed by the file's bytes (`h.update(rel_path.encode());
h.update(f.read_bytes())`). -/
def dirStream (files : DirTree) : String :=
  (sortBy (fun a b => pathLe a.1 b.1) files).foldl
    (fun acc pc => acc ++ pc.1 ++ pc.2) ""

/-- `compute_dir_hash`: `"missing"` for an absent directory, otherwise the
digest of the cumulative stream over all files in sorted path order. -/
def compute_dir_hash (Hs : String → String) (d : Option DirTree) : String :=
  match d with
  | none => "missing"
  | some files => Hs (dirStream files)

/-- File contents: either raw bytes, or the result of `zipcopy` appending the
payload zip (built from the stdlib and defaults trees) to a previous content. -/
inductive Content where
  | raw (bytes : String)
  | zipAppend (orig : Content) (stdlib : DirTree) (defaults : DirTree)
deriving DecidableEq, Repr

/-- `compute_file_hash`: `"missing"` for an absent file, otherwise the digest
of its bytes. -/
def compute_file_hash (Hc : Content → String) (f : Option Content) : String :=
  match f with
  | none => "missing"
  | some c => Hc c

/-- The current state computed by `get_current_state`: one digest per input. -/
structure CurrentState where
  base_binary : String
  stdlib : String
  defaults : String
deriving DecidableEq, Repr

/-- The parsed persisted embed state (a JSON object); each tracked key may be
absent, which `stored.get(key)` reads as `None`. -/
structure StoredState where
  base_binary : Option String
  stdlib : Option String
  defaults : Option String
deriving DecidableEq, Repr

/-- `save_state` persists the full current dictionary: every key present. -/
def toStored (c : CurrentState) : StoredState :=
  ⟨some c.base_binary, some c.stdlib, some c.defaults⟩

/-- Errors the embed pipeline can raise and never catches: `read_text` on
bytes that do not decode as text, and `stored.get` on a parsed JSON value
that is not an object. -/
inductive PyError where
  | unicodeDecodeError
  | attributeError
deriving DecidableEq, Repr

/-- Result of a call that can raise an uncaught exception. -/
inductive PyResult (α : Type) where
  | ok (val : α)
  | error (err : PyError)
deriving DecidableEq, Repr

/-- Contents of an existing stamp file, at the `read_text`/`json.loads`
interface: bytes that fail to decode as text; text that fails to parse as
JSON; the JSON literal `null` (parsed to Python `None`); valid JSON that is
not an object (a list, number, string or boolean); or a JSON object, read
as a `StoredState` record. -/
inductive StampFile where
  | undecodable
  | badJson
  | jsonNull
  | jsonNonRecord
  | jsonRecord (s : StoredState)
deriving DecidableEq, Repr

/-- A parsed stored value other than `None`: either a JSON object (a dict,
supporting `.get`) or any other JSON value (no `.get` attribute). -/
inductive ParsedStored where
  | nonRecord
  | record (s : StoredState)
deriving DecidableEq, Repr

/-- The world the embed script observes and mutates.  `stamp` models the
stamp file: `none` = no file, `some f` = file exists with contents `f`.
`stdlibLib` is the `py-tmp/lib` tree, `defaults` the `python_defaults`
tree. -/
structure World where
  target : Option Content
  base : Option Content
  stamp : Option StampFile
  stdlibLib : Option DirTree
  defaults : Option DirTree
deriving DecidableEq, Repr

/-- `get_current_state(target_base)`: digests of the base snapshot and both
payload roots. -/
def get_current_state (Hc : Content → String) (Hs : String → String)
    (w : World) : CurrentState :=
  { base_binary := compute_file_hash Hc w.base
  , stdlib := compute_dir_hash Hs w.stdlibLib
  , defaults := compute_dir_hash Hs w.defaults }

/-- `get_stored_state`: `None` when the stamp file is absent; the `except`
clause catches only `json.JSONDecodeError` (and `KeyError`), so text that
fails to parse as JSON is recovered as `None`, while bytes that
`read_text` cannot decode raise `UnicodeDecodeError` uncaught; JSON `null`
parses to Python `None`; any other successfully parsed value is returned
as-is. -/
def get_stored_state (w : World) : PyResult (Option ParsedStored) :=
  match w.stamp with
  | none => .ok none
  | some .undecodable => .error .unicodeDecodeError
  | some .badJson => .ok none
  | some .jsonNull => .ok none
  | some .jsonNonRecord => .ok (some .nonRecord)
  | some (.jsonRecord s) => .ok (some (.record s))

/-- `needs_embedding(current, stored)`: staleness decision with its reason. -/
def needs_embedding (current : CurrentState) (stored : Option StoredState) :
    Bool × String :=
  match stored with
  | none => (true, "no previous embed state found")
  | some s =>
    if current.base_binary = "missing" then
      (true, "base binary not found (run --save-base after linking)")
    else if some current.base_binary ≠ s.base_binary then
      (true, "base binary changed (relinked)")
    else if some current.stdlib ≠ s.stdlib then
      (true, "Python stdlib changed")
    else if some current.defaults ≠ s.defaults then
      (true, "Python defaults changed")
    else
      (false, "up to date")

/-- The call `needs_embedding(current, stored)` as `embed` performs it, on
the value `get_stored_state` returned: a stored value that is neither
`None` nor a dict passes the `stored is None` test and the
`current["base_binary"] == "missing"` test, then crashes with an uncaught
`AttributeError` at the first `stored.get`. -/
def needs_embedding_run (current : CurrentState)
    (stored : Option ParsedStored) : PyResult (Bool × String) :=
  match stored with
  | none => .ok (needs_embedding current none)
  | some (.record s) => .ok (needs_embedding current (some s))
  | some .nonRecord =>
    if current.base_binary = "missing" then
      .ok (true, "base binary not found (run --save-base after linking)")
    else
      .error .attributeError

/-- Outcome of `save_base`: normal return or `sys.exit(1)`. -/
inductive SaveOutcome where
  | ok
  | fatal
deriving DecidableEq, Repr

/-- `save_base(target, target_base, stamp_file)`: requires the target to
exist (else exits 1 with nothing written); copies it over the base snapshot
and unlinks the stamp file if present. -/
def save_base (w : World) : World × SaveOutcome :=
  match w.target with
  | none => (w, .fatal)
  | some t => ({ w with base := some t, stamp := none }, .ok)

/-- Outcome of `embed`: `fatal` is `sys.exit(1)`; `crashed` is an uncaught
exception (a non-zero exit with a traceback); `skipped` the up-to-date
no-op return and `embedded` a completed embed, each with the printed
reason. -/
inductive EmbedOutcome where
  | fatal
  | crashed
  | skipped (reason : String)
  | embedded (reason : String)
deriving DecidableEq, Repr

/-- The base-adoption step of `embed`: if no base snapshot exists but the
target does, the target is copied to the base path (both the "already has
embedded content" warning branch and the clean branch perform the same
copy; they differ only in what they print).  If neither exists the script
exits 1. -/
def adopt_base (w : World) : Option World :=
  match w.base with
  | some _ => some w
  | none =>
    match w.target with
    | some t => some { w with base := some t }
    | none => none

/-- The needs-check step of `embed`, given the decision `nr` and whether
the target file is absent: `none` means the run returns as a no-op (up to
date, not forced, target present); `some reason` means the embedding
proceeds, with the reason the script prints (the staleness reason, or the
target-missing restore of an otherwise up-to-date state). -/
def embedPlan (nr : Bool × String) (targetAbsent force : Bool) :
    Option String :=
  if ¬ nr.1 ∧ ¬ force then
    if targetAbsent then some "target binary missing" else none
  else
    some nr.2

/-- `embed(target, target_base, stamp_file, force)`.  `zipOk` models the two
external `zip` invocations of `create_embed_zip`, `zipcopyOk` the external
`zipcopy` invocation; a failing tool is modelled at its interface as
returning non-zero having left its output file unchanged.  The scratch
payload zip lives outside the modelled world (it is created and deleted
within the run).  On success the persisted state is the current state with
the base digest recomputed from the (unchanged) base snapshot file. -/
def embed (Hc : Content → String) (Hs : String → String) (w : World)
    (force zipOk zipcopyOk : Bool) : World × EmbedOutcome :=
  if w.stdlibLib.isNone then (w, .fatal)
  else if w.defaults.isNone then (w, .fatal)
  else
    match adopt_base w with
    | none => (w, .fatal)
    | some w1 =>
      match get_stored_state w1 with
      | .error _ => (w1, .crashed)
      | .ok stored =>
        match needs_embedding_run (get_current_state Hc Hs w1) stored with
        | .error _ => (w1, .crashed)
        | .ok nr =>
          match embedPlan nr w1.target.isNone force with
          | none => (w1, .skipped nr.2)
          | some reason =>
            match w1.base with
            | none => (w1, .fatal)
            | some b =>
              if ¬ zipOk then ({ w1 with target := some b }, .fatal)
              else if ¬ zipcopyOk then
                ({ w1 with target := some b }, .fatal)
              else
                ({ w1 with
                    target := some (Content.zipAppend b
                      (w1.stdlibLib.getD []) (w1.defaults.getD []))
                    stamp := some (.jsonRecord (toStored
                      { get_current_state Hc Hs w1 with
                        base_binary := compute_file_hash Hc w1.base })) },
                  .embedded reason)

end EmbedPy

namespace MergeFat

/-- A filesystem path split as (directory, file name); the aarch64
counterpart convention inserts `.aarch64` between them. -/
structure FPath where
  dir : String
  name : String
deriving DecidableEq, Repr

/-- `p.parent / ".aarch64" / p.name`. -/
def aarch64Sibling (p : FPath) : FPath :=
  ⟨p.dir ++ "/.aarch64", p.name⟩

/-- Rendering used in the error message listing missing archives. -/
def FPath.render (p : FPath) : String := p.dir ++ "/" ++ p.name

/-- `merge_archives(output, inputs)`: drives `ar -M` with a CREATE/ADDLIB/
SAVE script.  Modelled at the archiver's interface: if every input archive
exists the output archive is written (`some output`); if any `ADDLIB` input
is absent the archiver fails before `SAVE`, `check_call` raises, and no
output is written (`none`). -/
def merge_archives (fs : FPath → Bool) (output : FPath)
    (inputs : List FPath) : Option FPath :=
  if inputs.all fs then some output else none

/-- Result of one `merge_fat_archive.py` invocation: process exit code, the
archives written, in order, and the missing aarch64 paths reported in the
error message (empty when no such message is printed). -/
structure MergeOutcome where
  exitCode : Nat
  writes : List FPath
  missingReported : List String
deriving DecidableEq, Repr

/-- `main()` of `merge_fat_archive.py`: usage check, x86_64 merge, then the
missing-counterpart check over the `.aarch64/` inputs, then the aarch64
merge. -/
def merge_main (fs : FPath → Bool) (output : FPath)
    (inputs : List FPath) : MergeOutcome :=
  if inputs.isEmpty then ⟨1, [], []⟩
  else
    match merge_archives fs output inputs with
    | none => ⟨1, [], []⟩
    | some w1 =>
      let a64inputs := inputs.map aarch64Sibling
      let missing := a64inputs.filter (fun a => ! fs a)
      if missing.isEmpty then
        match merge_archives fs (aarch64Sibling output) a64inputs with
        | none => ⟨1, [w1], []⟩
        | some w2 => ⟨0, [w1, w2], []⟩
      else ⟨1, [w1], missing.map FPath.render⟩

end MergeFat

namespace PyBuild

/-- An object group of `_add_module_objects_to_library`: source subdirectory
under `Modules/`, listed object files, and an optional rename marker
(`pfx`) used to avoid member-name collisions. -/
structure ObjectGroup where
  subdir : String
  files : List String
  pfx : Option String
deriving DecidableEq, Repr

/-- The filesystem facts the injector consults: whether a directory exists
and whether a named object file exists inside a directory. -/
structure InjectEnv where
  dirExists : String → Bool
  fileExists : String → String → Bool

/-- Observable actions of one injection run: the non-fatal warning for a
missing group directory, and the two archiver invocations with the staged
object paths they receive. -/
inductive InjectEvent where
  | warnMissingDir (subdir : String)
  | arPrimary (objs : List String)
  | arSecondary (objs : List String)
deriving DecidableEq, Repr

/-- Staged path of an x86_64 object: copied to the scratch directory under
`{pfx}{f}` when a rename marker is set, else used from its source path. -/
def stagedPrimary (g : ObjectGroup) (f : String) : String :=
  match g.pfx with
  | some p => "tmp/" ++ p ++ f
  | none => g.subdir ++ "/" ++ f

/-- Staged path of an aarch64 object: `{pfx}aarch64_{f}` in the scratch
directory when a rename marker is set, else the source path under the
group's `.aarch64/` directory. -/
def stagedSecondary (g : ObjectGroup) (f : String) : String :=
  match g.pfx with
  | some p => "tmp/" ++ p ++ "aarch64_" ++ f
  | none => g.subdir ++ "/.aarch64/" ++ f

/-- The listed x86_64 objects of a group that exist, staged. -/
def primaryObjs (env : InjectEnv) (g : ObjectGroup) : List String :=
  (g.files.filter (env.fileExists g.subdir)).map (stagedPrimary g)

/-- The listed aarch64 objects of a group that exist, staged. -/
def secondaryObjs (env : InjectEnv) (g : ObjectGroup) : List String :=
  (g.files.filter (env.fileExists (g.subdir ++ "/.aarch64"))).map
    (stagedSecondary g)

/-- Processing of one object group: a group whose source directory is absent
produces only a warning; otherwise each architecture whose objects are
(partly) present gets one archiver invocation with exactly the staged
existing objects.  `hasA64` models whether a secondary library path was
passed (`lib_aarch64` non-None). -/
def processGroup (env : InjectEnv) (hasA64 : Bool) (g : ObjectGroup) :
    List InjectEvent :=
  if ¬ env.dirExists g.subdir then [.warnMissingDir g.subdir]
  else
    (if (primaryObjs env g).isEmpty then []
     else [.arPrimary (primaryObjs env g)]) ++
    (if hasA64 then
      if env.dirExists (g.subdir ++ "/.aarch64") then
        if (secondaryObjs env g).isEmpty then []
        else [.arSecondary (secondaryObjs env g)]
      else []
     else [])

/-- `_add_module_objects_to_library`: the groups are processed in order,
independently. -/
def add_module_objects (env : InjectEnv) (hasA64 : Bool)
    (groups : List ObjectGroup) : List InjectEvent :=
  (groups.map (processGroup env hasA64)).flatten

/-- The concrete `object_groups` table of `_add_module_objects_to_library`. -/
def object_groups : List ObjectGroup :=
  [ ⟨"_hacl", ["Hacl_Hash_SHA2.o", "Hacl_Hash_SHA1.o", "Hacl_Hash_MD5.o",
      "Hacl_Hash_SHA3.o"], none⟩
  , ⟨"expat", ["xmlparse.o", "xmlrole.o", "xmltok.o"], none⟩
  , ⟨"_decimal/libmpdec", ["basearith.o", "constants.o", "context.o",
      "convolute.o", "crt.o", "difradix2.o", "fnt.o", "fourstep.o", "io.o",
      "mpalloc.o", "mpdecimal.o", "numbertheory.o", "sixstep.o",
      "transpose.o"], some "mpdec_"⟩ ]

/-- The final-binary step of `create_fat_binary` (Step 2): either an
`apelink` invocation or a plain copy of the already-fat input. -/
inductive FatAction where
  | apelink (stub x86 a64 output : String)
  | copyFat (src output : String)
deriving DecidableEq, Repr

/-- Step 2 of `create_fat_binary`: when both architecture-specific
executables exist, `apelink` is invoked on both plus the `ape-m1.c`
bootstrap stub; otherwise the output is a copy of `fat_python_bin`, the
already-usable fat executable the toolchain produced.  The action is a pure
function of these inputs: no other state is consulted or retained. -/
def create_fat_binary_link (x86Exists a64Exists : Bool)
    (fatPythonBin x86Bin a64Bin stub output : String) : FatAction :=
  if x86Exists && a64Exists then .apelink stub x86Bin a64Bin output
  else .copyFat fatPythonBin output

/-- A sample filesystem for exercising the injector: the `_hacl` source
directory is absent, `expat` is present but `xmlrole.o` is missing from it,
and the mpdec directory is present with only `context.o`. -/
def sampleEnv : InjectEnv where
  dirExists := fun d => d == "expat" || d == "_decimal/libmpdec"
  fileExists := fun d f =>
    (d == "expat" && (f == "xmlparse.o" || f == "xmltok.o")) ||
    (d == "_decimal/libmpdec" && f == "context.o")

end PyBuild

namespace EmbedPy

/-- Claim C2: the staleness decision `needs_embedding` follows the specified
case analysis — absent stored state always forces a re-embed with the
no-previous-state reason; a `"missing"` base hash forces one; a differing
base hash forces one; otherwise the payload roots are compared in the fixed
order stdlib, defaults with the matching reason; and when everything matches
the decision is `(false, "up to date")`. -/
theorem needs_embedding_decision_spec (c : CurrentState) (s : StoredState) :
    needs_embedding c none = (true, "no previous embed state found") ∧
    (c.base_binary = "missing" →
      needs_embedding c (some s) =
        (true, "base binary not found (run --save-base after linking)")) ∧
    (some c.base_binary ≠ s.base_binary →
      (needs_embedding c (some s)).1 = true) ∧
    (c.base_binary ≠ "missing" → some c.base_binary = s.base_binary →
      some c.stdlib ≠ s.stdlib →
      needs_embedding c (some s) = (true, "Python stdlib changed")) ∧
    (c.base_binary ≠ "missing" → some c.base_binary = s.base_binary →
      some c.stdlib = s.stdlib → some c.defaults ≠ s.defaults →
      needs_embedding c (some s) = (true, "Python defaults changed")) ∧
    (c.base_binary ≠ "missing" → some c.base_binary = s.base_binary →
      some c.stdlib = s.stdlib → some c.defaults = s.defaults →
      needs_embedding c (some s) = (false, "up to date")) := by
  refine ⟨rfl, ?_, ?_, ?_, ?_, ?_⟩ <;>
    (intros; simp only [needs_embedding]; split_ifs <;> simp_all)

/-- Concrete instances of claim C2: the example triple of the spec, a change
confined to the defaults root, and an absent stored state. -/
theorem needs_embedding_decision_spec_witness :
    needs_embedding ⟨"h1", "x", "y"⟩
        (some ⟨some "h1", some "x", some "y"⟩) = (false, "up to date") ∧
    needs_embedding ⟨"h1", "x", "z"⟩
        (some ⟨some "h1", some "x", some "y"⟩) =
      (true, "Python defaults changed") ∧
    needs_embedding ⟨"h1", "x", "y"⟩ none =
      (true, "no previous embed state found") := by
  refine ⟨?_, ?_, ?_⟩
  · exact (needs_embedding_decision_spec ⟨"h1", "x", "y"⟩
      ⟨some "h1", some "x", some "y"⟩).2.2.2.2.2 (by decide) rfl rfl rfl
  · exact (needs_embedding_decision_spec ⟨"h1", "x", "z"⟩
      ⟨some "h1", some "x", some "y"⟩).2.2.2.2.1 (by decide) rfl rfl (by decide)
  · exact (needs_embedding_decision_spec ⟨"h1", "x", "y"⟩
      ⟨some "h1", some "x", some "y"⟩).1

/-- Claim C10: a stored state record that is present but lacks one of the
tracked keys does not raise: `stored.get` reads the key as absent, it
compares unequal to the current digest, and the decision is a re-embed
with the corresponding component's reason. -/
theorem needs_embedding_missing_field (c : CurrentState) (s : StoredState) :
    (c.base_binary ≠ "missing" → s.base_binary = none →
      needs_embedding c (some s) = (true, "base binary changed (relinked)")) ∧
    (c.base_binary ≠ "missing" → s.base_binary = some c.base_binary →
      s.stdlib = none →
      needs_embedding c (some s) = (true, "Python stdlib changed")) ∧
    (c.base_binary ≠ "missing" → s.base_binary = some c.base_binary →
      s.stdlib = some c.stdlib → s.defaults = none →
      needs_embedding c (some s) = (true, "Python defaults changed")) := by
  refine ⟨?_, ?_, ?_⟩ <;>
    (intros; simp only [needs_embedding]; split_ifs <;> simp_all)

/-- Concrete instances of claim C10: each of the three tracked keys in turn
absent from the stored record. -/
theorem needs_embedding_missing_field_witness :
    needs_embedding ⟨"h1", "x", "y"⟩ (some ⟨none, some "x", some "y"⟩) =
      (true, "base binary changed (relinked)") ∧
    needs_embedding ⟨"h1", "x", "y"⟩ (some ⟨some "h1", none, some "y"⟩) =
      (true, "Python stdlib changed") ∧
    needs_embedding ⟨"h1", "x", "y"⟩ (some ⟨some "h1", some "x", none⟩) =
      (true, "Python defaults changed") := by
  refine ⟨?_, ?_, ?_⟩
  · exact (needs_embedding_missing_field ⟨"h1", "x", "y"⟩
      ⟨none, some "x", some "y"⟩).1 (by decide) rfl
  · exact (needs_embedding_missing_field ⟨"h1", "x", "y"⟩
      ⟨some "h1", none, some "y"⟩).2.1 (by decide) rfl rfl
  · exact (needs_embedding_missing_field ⟨"h1", "x", "y"⟩
      ⟨some "h1", some "x", none⟩).2.2 (by decide) rfl rfl rfl

/-- Counterexample to claim C8: a stamp file holding valid JSON that is not
an object (for example `[]`) is malformed as a persisted record, yet it is
not read back as an absent state — `get_stored_state` returns it as-is,
and the embed run then crashes at `stored.get` with an uncaught
`AttributeError`: the pipeline aborts instead of forcing a full re-embed. -/
theorem corrupt_stamp_crash_counterexample :
    get_stored_state ⟨none, some (.raw "B"), some .jsonNonRecord,
        some [], some []⟩ ≠ .ok none ∧
    embed (fun _ => "0123456789abcdef") (fun _ => "aaaabbbbccccdddd")
        ⟨none, some (.raw "B"), some .jsonNonRecord, some [], some []⟩
        false true true =
      (⟨none, some (.raw "B"), some .jsonNonRecord, some [], some []⟩,
        .crashed) := by
  exact ⟨by decide, by decide⟩

/-- Claim C8 as amended: a stamp file whose text fails to parse as JSON is
read back as an absent stored state, so the next decision is a full
re-embed with the no-previous-state reason; but the recovery covers only
`json.JSONDecodeError` — a stamp whose bytes do not decode as text raises
`UnicodeDecodeError` out of the read uncaught, and a stamp holding valid
JSON that is not an object is returned as-is and crashes the decision at
`stored.get` with `AttributeError` (unless the base digest is the
`"missing"` marker, whose check returns first); in those cases the
pipeline aborts instead of re-embedding. -/
theorem corrupt_stamp_recovery (w : World) (c : CurrentState) :
    (w.stamp = some .badJson →
      get_stored_state w = .ok none ∧
      needs_embedding_run c none =
        .ok (true, "no previous embed state found")) ∧
    (w.stamp = some .undecodable →
      get_stored_state w = .error .unicodeDecodeError) ∧
    (w.stamp = some .jsonNonRecord →
      get_stored_state w = .ok (some .nonRecord) ∧
      (c.base_binary ≠ "missing" →
        needs_embedding_run c (some .nonRecord) =
          .error .attributeError)) := by
  refine ⟨fun h => ⟨by simp [get_stored_state, h], rfl⟩,
    fun h => by simp [get_stored_state, h],
    fun h => ⟨by simp [get_stored_state, h], fun hnm => by
      simp [needs_embedding_run, hnm]⟩⟩

/-- Concrete instances of amended claim C8: the three malformed stamp
shapes — unparseable text (recovered as absent), undecodable bytes
(uncaught decode error), and a JSON list (uncaught attribute error at the
decision). -/
theorem corrupt_stamp_recovery_witness :
    get_stored_state ⟨none, none, some .badJson, none, none⟩ = .ok none ∧
    needs_embedding_run ⟨"h1", "x", "y"⟩ none =
      .ok (true, "no previous embed state found") ∧
    get_stored_state ⟨none, none, some .undecodable, none, none⟩ =
      .error .unicodeDecodeError ∧
    needs_embedding_run ⟨"h1", "x", "y"⟩ (some .nonRecord) =
      .error .attributeError := by
  refine ⟨((corrupt_stamp_recovery ⟨none, none, some .badJson, none, none⟩
      ⟨"h1", "x", "y"⟩).1 rfl).1,
    ((corrupt_stamp_recovery ⟨none, none, some .badJson, none, none⟩
      ⟨"h1", "x", "y"⟩).1 rfl).2,
    (corrupt_stamp_recovery ⟨none, none, some .undecodable, none, none⟩
      ⟨"h1", "x", "y"⟩).2.1 rfl,
    ((corrupt_stamp_recovery ⟨none, none, some .jsonNonRecord, none, none⟩
      ⟨"h1", "x", "y"⟩).2.2 rfl).2 (by decide)⟩

/-- Claim C5: when the target exists, `save_base` copies it to the base
snapshot and deletes the persisted state, so a decision taken immediately
afterwards against any current state finds no stored state and reports a
re-embed with the no-previous-state reason; when the target is absent,
`save_base` exits fatally leaving the world unchanged (no snapshot
written). -/
theorem save_base_spec (w : World) (c : CurrentState) :
    (∀ t, w.target = some t →
      save_base w = ({ w with base := some t, stamp := none }, .ok) ∧
      get_stored_state (save_base w).1 = .ok none ∧
      (∀ st, get_stored_state (save_base w).1 = .ok st →
        needs_embedding_run c st =
          .ok (true, "no previous embed state found"))) ∧
    (w.target = none → save_base w = (w, .fatal)) := by
  constructor
  · intro t ht
    have h0 : get_stored_state (save_base w).1 = .ok none := by
      simp [save_base, ht, get_stored_state]
    refine ⟨by simp [save_base, ht], h0, ?_⟩
    intro st hst
    rw [h0] at hst
    obtain rfl := PyResult.ok.inj hst
    rfl
  · intro ht
    simp [save_base, ht]

/-- Concrete instances of claim C5: a world with an existing target, and one
whose target is absent. -/
theorem save_base_spec_witness :
    save_base ⟨some (.raw "T"), some (.raw "B"),
        some (.jsonRecord ⟨some "a", some "b", some "c"⟩), none, none⟩ =
      (⟨some (.raw "T"), some (.raw "T"), none, none, none⟩, .ok) ∧
    needs_embedding_run ⟨"h1", "x", "y"⟩ none =
      .ok (true, "no previous embed state found") ∧
    save_base ⟨none, some (.raw "B"), none, none, none⟩ =
      (⟨none, some (.raw "B"), none, none, none⟩, .fatal) := by
  refine ⟨?_, ?_, ?_⟩
  · exact ((save_base_spec ⟨some (.raw "T"), some (.raw "B"),
      some (.jsonRecord ⟨some "a", some "b", some "c"⟩), none, none⟩
      ⟨"h1", "x", "y"⟩).1 (.raw "T") rfl).1
  · exact ((save_base_spec ⟨some (.raw "T"), some (.raw "B"),
      some (.jsonRecord ⟨some "a", some "b", some "c"⟩), none, none⟩
      ⟨"h1", "x", "y"⟩).1 (.raw "T") rfl).2.2 none
      ((save_base_spec ⟨some (.raw "T"), some (.raw "B"),
        some (.jsonRecord ⟨some "a", some "b", some "c"⟩), none, none⟩
        ⟨"h1", "x", "y"⟩).1 (.raw "T") rfl).2.1
  · exact (save_base_spec ⟨none, some (.raw "B"), none, none, none⟩
      ⟨"h1", "x", "y"⟩).2 rfl

end EmbedPy

namespace PyBuild

/-- Claim C9: the assembler step of `create_fat_binary` invokes `apelink`
with both architecture-specific executables plus the bootstrap stub when
both exist, and otherwise (in particular whenever the aarch64 executable is
absent) copies the already-fat input executable to the output; the action
depends on nothing else. -/
theorem create_fat_binary_link_spec (x86E a64E : Bool)
    (fat x86 a64 stub outp : String) :
    (x86E = true → a64E = true →
      create_fat_binary_link x86E a64E fat x86 a64 stub outp =
        .apelink stub x86 a64 outp) ∧
    (a64E = false →
      create_fat_binary_link x86E a64E fat x86 a64 stub outp =
        .copyFat fat outp) := by
  constructor
  · intro h1 h2
    simp [create_fat_binary_link, h1, h2]
  · intro h2
    simp [create_fat_binary_link, h2]

/-- Concrete instances of claim C9: both executables present, and the
aarch64 one absent. -/
theorem create_fat_binary_link_spec_witness :
    create_fat_binary_link true true "python.fat" "python.x86" "python.a64"
        "ape-m1.c" "python.com" =
      .apelink "ape-m1.c" "python.x86" "python.a64" "python.com" ∧
    create_fat_binary_link true false "python.fat" "python.x86" "python.a64"
        "ape-m1.c" "python.com" =
      .copyFat "python.fat" "python.com" :=
  ⟨(create_fat_binary_link_spec true true "python.fat" "python.x86"
      "python.a64" "ape-m1.c" "python.com").1 rfl rfl,
   (create_fat_binary_link_spec true false "python.fat" "python.x86"
      "python.a64" "ape-m1.c" "python.com").2 rfl⟩

end PyBuild

namespace MergeFat

/-- Counterexample to claim C1: with a single input archive whose aarch64
counterpart is missing, the merge tool exits non-zero and reports the
missing path, but the primary output archive has already been written — the
operation is not atomic, a primary-only partial output exists afterwards. -/
theorem merge_writes_primary_before_failing :
    merge_main (fun p => p == ⟨"lib", "a.a"⟩) ⟨"lib", "out.a"⟩
        [⟨"lib", "a.a"⟩] =
      ⟨1, [⟨"lib", "out.a"⟩], ["lib/.aarch64/a.a"]⟩ := by decide

/-- Claim C1 as amended: whenever every primary input exists but at least
one aarch64 counterpart is missing, the merge exits non-zero reporting all
missing counterpart paths at once and does not write the secondary output —
but the primary output has already been written by that point, so a
primary-only partial result remains. -/
theorem merge_missing_counterpart (fs : FPath → Bool) (output : FPath)
    (inputs : List FPath) (hne : inputs ≠ [])
    (hall : inputs.all fs = true)
    (hmiss : (inputs.map aarch64Sibling).filter (fun a => ! fs a) ≠ []) :
    merge_main fs output inputs =
      ⟨1, [output],
        ((inputs.map aarch64Sibling).filter (fun a => ! fs a)).map
          FPath.render⟩ := by
  unfold merge_main merge_archives
  rw [if_neg (by simpa using hne), if_pos hall]
  simp only [List.isEmpty_eq_true]
  rw [if_neg hmiss]

/-- Concrete instance of amended claim C1: two inputs, both present, exactly
one aarch64 counterpart missing; the run exits 1, reports that one missing
path, and has written the primary output only. -/
theorem merge_missing_counterpart_witness :
    merge_main
        (fun p => p == ⟨"l", "a.a"⟩ || p == ⟨"l", "b.a"⟩ ||
          p == ⟨"l/.aarch64", "a.a"⟩)
        ⟨"l", "out.a"⟩ [⟨"l", "a.a"⟩, ⟨"l", "b.a"⟩] =
      ⟨1, [⟨"l", "out.a"⟩], ["l/.aarch64/b.a"]⟩ :=
  (merge_missing_counterpart
    (fun p => p == ⟨"l", "a.a"⟩ || p == ⟨"l", "b.a"⟩ ||
      p == ⟨"l/.aarch64", "a.a"⟩)
    ⟨"l", "out.a"⟩ [⟨"l", "a.a"⟩, ⟨"l", "b.a"⟩]
    (by decide) (by decide) (by decide)).trans (by decide)

end MergeFat

namespace EmbedPy

theorem insertSorted_perm (le : α → α → Bool) (x : α) (l : List α) :
    (insertSorted le x l).Perm (x :: l) := by
  induction l with
  | nil => exact List.Perm.refl _
  | cons y ys ih =>
    unfold insertSorted
    split
    · exact List.Perm.refl _
    · exact (ih.cons y).trans (List.Perm.swap x y ys)

theorem sortBy_perm (le : α → α → Bool) (l : List α) :
    (sortBy le l).Perm l := by
  induction l with
  | nil => exact List.Perm.refl _
  | cons x xs ih =>
    exact (insertSorted_perm le x (sortBy le xs)).trans (ih.cons x)

theorem foldl_concat_length (l : DirTree) (s : String) :
    (l.foldl (fun acc pc => acc ++ pc.1 ++ pc.2) s).length =
      s.length + (l.map (fun pc => pc.1.length + pc.2.length)).sum := by
  induction l generalizing s with
  | nil => simp
  | cons p ps ih =>
    simp only [List.foldl_cons, ih, List.map_cons, List.sum_cons,
      String.length_append]
    ring

/-- The length of the hash input stream of a tree is the total size of its
relative paths and file contents, independently of the sort order. -/
theorem dirStream_length (files : DirTree) :
    (dirStream files).length =
      (files.map (fun pc => pc.1.length + pc.2.length)).sum := by
  unfold dirStream
  rw [foldl_concat_length]
  have hp := (sortBy_perm (fun a b => pathLe a.1 b.1) files).map
    (fun pc => pc.1.length + pc.2.length)
  simp [hp.sum_eq]

/-- Counterexample to claim C6: renaming a file with its content unchanged
does not always change the directory hash.  The tree with files `aba` and
`ba` (both empty) and the tree obtained from it by renaming `ba` to `ab`
feed the identical byte stream `"ababa"` to the cumulative hasher, so the
digest — for the real SHA-256 as for any digest function — is identical. -/
theorem dir_hash_rename_collision :
    dirStream [("aba", ""), ("ba", "")] =
      dirStream [("ab", ""), ("aba", "")] ∧
    compute_dir_hash (fun s => s) (some [("aba", ""), ("ba", "")]) =
      compute_dir_hash (fun s => s) (some [("ab", ""), ("aba", "")]) ∧
    ([("aba", ""), ("ba", "")] : DirTree) ≠ [("ab", ""), ("aba", "")] ∧
    ("ab" : String) ≠ "ba" ∧
    (("ab", ("" : String))) ∉ ([("aba", ""), ("ba", "")] : DirTree) := by
  refine ⟨by decide, by decide, by decide, by decide, by decide⟩

/-- Claim C6 as amended: the directory hash is the digest of the cumulative
stream over each file's relative path and bytes in sorted path order; both
hash functions return the literal marker `"missing"` for an absent path; an
existing tree always hashes to a 16-character digest distinct from the
marker; and adding (or, read right to left, removing) a file always changes
the hash input stream.  Renaming, however, is detected only up to stream
equality: specific renames can leave the stream — hence the digest —
unchanged. -/
theorem content_hash_spec (Hc : Content → String) (Hs : String → String)
    (files : DirTree) (p c : String) :
    compute_file_hash Hc none = "missing" ∧
    compute_dir_hash Hs none = "missing" ∧
    ((∀ s, (Hs s).length = 16) →
      (compute_dir_hash Hs (some files)).length = 16 ∧
      compute_dir_hash Hs (some files) ≠ "missing") ∧
    (p ≠ "" → dirStream ((p, c) :: files) ≠ dirStream files) := by
  refine ⟨rfl, rfl, ?_, ?_⟩
  · intro hlen
    refine ⟨hlen _, fun hEq => ?_⟩
    have h16 := hlen (dirStream files)
    rw [show compute_dir_hash Hs (some files) = Hs (dirStream files)
      from rfl] at hEq
    rw [hEq] at h16
    exact absurd h16 (by decide)
  · intro hp hEq
    have h1 := dirStream_length ((p, c) :: files)
    rw [hEq, dirStream_length files] at h1
    simp only [List.map_cons, List.sum_cons] at h1
    have hplen : p.length ≠ 0 := fun h0 => hp (by
      cases p with
      | mk data =>
        cases data with
        | nil => rfl
        | cons a l => simp [String.length] at h0)
    omega

/-- Concrete instance of amended claim C6: a 16-character digest function,
an existing one-file tree, and the addition of a new file `x`. -/
theorem content_hash_spec_witness :
    compute_file_hash (fun _ => "0123456789abcdef") none = "missing" ∧
    compute_dir_hash (fun _ => "0123456789abcdef") none = "missing" ∧
    (compute_dir_hash (fun _ => "0123456789abcdef")
      (some [("a", "hello")])).length = 16 ∧
    compute_dir_hash (fun _ => "0123456789abcdef")
      (some [("a", "hello")]) ≠ "missing" ∧
    dirStream [("x", ""), ("a", "hello")] ≠ dirStream [("a", "hello")] := by
  have h := content_hash_spec (fun _ => "0123456789abcdef")
    (fun _ => "0123456789abcdef") [("a", "hello")] "x" ""
  exact ⟨h.1, h.2.1, (h.2.2.1 (fun s => rfl)).1, (h.2.2.1 (fun s => rfl)).2,
    h.2.2.2 (by decide)⟩

end EmbedPy

namespace PyBuild

/-- Counterexample to claim C7: a listed object file that is missing from
an existing group directory is skipped silently, not "with a non-fatal
warning".  With `xmlrole.o` absent from the present `expat` directory, the
run's entire output is a single archiver invocation carrying the two
present staged files — no warning event of any kind is emitted (the only
warning the injector ever prints is for a missing group directory). -/
theorem inject_missing_file_skipped_silently :
    add_module_objects sampleEnv false
        [⟨"expat", ["xmlparse.o", "xmlrole.o", "xmltok.o"], none⟩] =
      [.arPrimary ["expat/xmlparse.o", "expat/xmltok.o"]] ∧
    sampleEnv.dirExists "expat" = true ∧
    sampleEnv.fileExists "expat" "xmlrole.o" = false ∧
    InjectEvent.warnMissingDir "expat" ∉
      add_module_objects sampleEnv false
        [⟨"expat", ["xmlparse.o", "xmlrole.o", "xmltok.o"], none⟩] := by
  exact ⟨by decide, by decide, by decide, by decide⟩

/-- Claim C7 as amended: a group whose source directory is absent
contributes exactly one non-fatal warning, leaving every other group's
processing unchanged; and within a group whose directory exists, a listed
object file that is missing is skipped silently — such a group emits
archiver invocations only, never any warning — while every other listed
object that exists is still staged and passed to the archiver invocation
for that group. -/
theorem inject_skips_missing (env : InjectEnv) (hasA64 : Bool)
    (pre post : List ObjectGroup) (g : ObjectGroup) (f f' : String) :
    (env.dirExists g.subdir = false →
      add_module_objects env hasA64 (pre ++ g :: post) =
        add_module_objects env hasA64 pre ++
          ([.warnMissingDir g.subdir] ++
            add_module_objects env hasA64 post)) ∧
    (env.dirExists g.subdir = true → f ∈ g.files →
      env.fileExists g.subdir f = false → f' ∈ g.files →
      env.fileExists g.subdir f' = true →
      stagedPrimary g f' ∈ primaryObjs env g ∧
      InjectEvent.arPrimary (primaryObjs env g) ∈
        add_module_objects env hasA64 (pre ++ g :: post) ∧
      f ∉ g.files.filter (env.fileExists g.subdir) ∧
      (∀ sd, InjectEvent.warnMissingDir sd ∉
        processGroup env hasA64 g)) := by
  have hsplit : add_module_objects env hasA64 (pre ++ g :: post) =
      add_module_objects env hasA64 pre ++
        (processGroup env hasA64 g ++ add_module_objects env hasA64 post) := by
    simp [add_module_objects]
  constructor
  · intro hdir
    rw [hsplit]
    simp [processGroup, hdir]
  · intro hdir hf hfx hf' hfx'
    have hmem : stagedPrimary g f' ∈ primaryObjs env g :=
      List.mem_map_of_mem _ (List.mem_filter.mpr ⟨hf', hfx'⟩)
    refine ⟨hmem, ?_, ?_, ?_⟩
    · have hne : (primaryObjs env g).isEmpty = false := by
        cases h : primaryObjs env g with
        | nil => rw [h] at hmem; cases hmem
        | cons a l => rfl
      rw [hsplit]
      have hpg : InjectEvent.arPrimary (primaryObjs env g) ∈
          processGroup env hasA64 g := by
        simp [processGroup, hdir, hne]
      exact List.mem_append_right _ (List.mem_append_left _ hpg)
    · intro hbad
      have := (List.mem_filter.mp hbad).2
      rw [hfx] at this
      cases this
    · intro sd hwarn
      unfold processGroup at hwarn
      rw [if_neg (by simp [hdir])] at hwarn
      rcases List.mem_append.mp hwarn with hx | hx <;> revert hx <;>
        split_ifs <;> simp

/-- Concrete instance of amended claim C7 on the real `object_groups`
table: the absent `_hacl` directory yields only a warning, the other
groups are still processed, and within `expat` the missing `xmlrole.o` is
skipped — with no warning emitted by that group — while `xmlparse.o` is
still staged into the archiver invocation. -/
theorem inject_skips_missing_witness :
    add_module_objects sampleEnv false object_groups =
      [.warnMissingDir "_hacl",
       .arPrimary ["expat/xmlparse.o", "expat/xmltok.o"],
       .arPrimary ["tmp/mpdec_context.o"]] ∧
    InjectEvent.arPrimary (primaryObjs sampleEnv
        ⟨"expat", ["xmlparse.o", "xmlrole.o", "xmltok.o"], none⟩) ∈
      add_module_objects sampleEnv false object_groups ∧
    "xmlrole.o" ∉
      List.filter (sampleEnv.fileExists "expat")
        ["xmlparse.o", "xmlrole.o", "xmltok.o"] ∧
    InjectEvent.warnMissingDir "_hacl" ∉
      processGroup sampleEnv false
        ⟨"expat", ["xmlparse.o", "xmlrole.o", "xmltok.o"], none⟩ := by
  refine ⟨?_, ?_, ?_, ?_⟩
  · exact ((inject_skips_missing sampleEnv false []
      [⟨"expat", ["xmlparse.o", "xmlrole.o", "xmltok.o"], none⟩,
       ⟨"_decimal/libmpdec", ["basearith.o", "constants.o", "context.o",
        "convolute.o", "crt.o", "difradix2.o", "fnt.o", "fourstep.o", "io.o",
        "mpalloc.o", "mpdecimal.o", "numbertheory.o", "sixstep.o",
        "transpose.o"], some "mpdec_"⟩]
      ⟨"_hacl", ["Hacl_Hash_SHA2.o", "Hacl_Hash_SHA1.o", "Hacl_Hash_MD5.o",
        "Hacl_Hash_SHA3.o"], none⟩
      "x" "y").1 (by decide)).trans (by decide)
  · exact ((inject_skips_missing sampleEnv false
      [⟨"_hacl", ["Hacl_Hash_SHA2.o", "Hacl_Hash_SHA1.o", "Hacl_Hash_MD5.o",
        "Hacl_Hash_SHA3.o"], none⟩]
      [⟨"_decimal/libmpdec", ["basearith.o", "constants.o", "context.o",
        "convolute.o", "crt.o", "difradix2.o", "fnt.o", "fourstep.o", "io.o",
        "mpalloc.o", "mpdecimal.o", "numbertheory.o", "sixstep.o",
        "transpose.o"], some "mpdec_"⟩]
      ⟨"expat", ["xmlparse.o", "xmlrole.o", "xmltok.o"], none⟩
      "xmlrole.o" "xmlparse.o").2 (by decide) (by decide) (by decide)
      (by decide) (by decide)).2.1
  · exact ((inject_skips_missing sampleEnv false
      [⟨"_hacl", ["Hacl_Hash_SHA2.o", "Hacl_Hash_SHA1.o", "Hacl_Hash_MD5.o",
        "Hacl_Hash_SHA3.o"], none⟩]
      [⟨"_decimal/libmpdec", ["basearith.o", "constants.o", "context.o",
        "convolute.o", "crt.o", "difradix2.o", "fnt.o", "fourstep.o", "io.o",
        "mpalloc.o", "mpdecimal.o", "numbertheory.o", "sixstep.o",
        "transpose.o"], some "mpdec_"⟩]
      ⟨"expat", ["xmlparse.o", "xmlrole.o", "xmltok.o"], none⟩
      "xmlrole.o" "xmlparse.o").2 (by decide) (by decide) (by decide)
      (by decide) (by decide)).2.2.1
  · exact ((inject_skips_missing sampleEnv false
      [⟨"_hacl", ["Hacl_Hash_SHA2.o", "Hacl_Hash_SHA1.o", "Hacl_Hash_MD5.o",
        "Hacl_Hash_SHA3.o"], none⟩]
      [⟨"_decimal/libmpdec", ["basearith.o", "constants.o", "context.o",
        "convolute.o", "crt.o", "difradix2.o", "fnt.o", "fourstep.o", "io.o",
        "mpalloc.o", "mpdecimal.o", "numbertheory.o", "sixstep.o",
        "transpose.o"], some "mpdec_"⟩]
      ⟨"expat", ["xmlparse.o", "xmlrole.o", "xmltok.o"], none⟩
      "xmlrole.o" "xmlparse.o").2 (by decide) (by decide) (by decide)
      (by decide) (by decide)).2.2.2 "_hacl"

end PyBuild

namespace EmbedPy

theorem adopt_base_some (w w' : World) (h : adopt_base w = some w') :
    w'.stdlibLib = w.stdlibLib ∧ w'.defaults = w.defaults := by
  unfold adopt_base at h
  rcases hb : w.base with _ | bb <;> rw [hb] at h
  · rcases ht : w.target with _ | t <;> rw [ht] at h
    · cases h
    · cases h
      exact ⟨rfl, rfl⟩
  · cases h
    exact ⟨rfl, rfl⟩

/-- Claim C4: in any embed run in which the external `zipcopy` append step
returns non-zero, `embed` aborts fatally, the persisted embed state is not
written or updated, and the target at that point is exactly the clean base
snapshot that was just copied over it — so a re-run recovers. -/
theorem embed_zipcopy_failure (Hc : Content → String) (Hs : String → String)
    (w : World) (force : Bool) (b : Content) (L D : DirTree)
    (stored : Option ParsedStored) (nr : Bool × String)
    (hb : w.base = some b) (hL : w.stdlibLib = some L)
    (hD : w.defaults = some D)
    (hst : get_stored_state w = .ok stored)
    (hnr : needs_embedding_run (get_current_state Hc Hs w) stored = .ok nr)
    (hgo : nr.1 = true ∨ force = true ∨ w.target = none) :
    embed Hc Hs w force true false = ({ w with target := some b }, .fatal) ∧
    (embed Hc Hs w force true false).1.stamp = w.stamp ∧
    (embed Hc Hs w force true false).1.target = some b := by
  have hadopt : adopt_base w = some w := by
    unfold adopt_base
    rw [hb]
  have hplan : ∃ rr, embedPlan nr w.target.isNone force = some rr := by
    unfold embedPlan
    rcases hgo with hg | hg | hg
    · rw [hg]
      simp
    · rw [hg]
      simp
    · by_cases hc : ¬ nr.1 = true ∧ ¬ force = true
      · rw [if_pos hc, hg]
        simp
      · rw [if_neg hc]
        exact ⟨_, rfl⟩
  obtain ⟨rr, hrr⟩ := hplan
  have hmain : embed Hc Hs w force true false =
      ({ w with target := some b }, .fatal) := by
    unfold embed
    simp [hL, hD, hadopt, hst, hnr, hrr, hb]
  exact ⟨hmain, by simp [hmain], by simp [hmain]⟩

/-- Concrete instance of claim C4: a first-ever embed (no stored state) in
which `zipcopy` fails; the run exits fatally, the stamp stays absent, and
the target equals the base snapshot. -/
theorem embed_zipcopy_failure_witness :
    embed (fun _ => "0123456789abcdef") (fun _ => "0123456789abcdef")
        ⟨some (.raw "T"), some (.raw "B"), none, some [], some []⟩
        false true false =
      (⟨some (.raw "B"), some (.raw "B"), none, some [], some []⟩,
        .fatal) := by
  have h := embed_zipcopy_failure (fun _ => "0123456789abcdef")
    (fun _ => "0123456789abcdef")
    ⟨some (.raw "T"), some (.raw "B"), none, some [], some []⟩ false
    (.raw "B") [] [] none (true, "no previous embed state found")
    rfl rfl rfl rfl (by decide) (Or.inl rfl)
  exact h.1.trans (by decide)

end EmbedPy

namespace EmbedPy

theorem embed_skips (Hc : Content → String) (Hs : String → String)
    (v : World) (z1 z2 : Bool)
    (h1 : v.stdlibLib.isNone = false) (h2 : v.defaults.isNone = false)
    (hb : ∃ bb, v.base = some bb)
    (stored : Option ParsedStored)
    (hst : get_stored_state v = .ok stored)
    (hnr : needs_embedding_run (get_current_state Hc Hs v) stored =
      .ok (false, "up to date"))
    (htgt : v.target.isNone = false) :
    embed Hc Hs v false z1 z2 = (v, .skipped "up to date") := by
  obtain ⟨bb, hbb⟩ := hb
  have hAd : adopt_base v = some v := by
    unfold adopt_base
    rw [hbb]
  unfold embed
  simp [h1, h2, hAd, hst, hnr, embedPlan, htgt]

/-- Claim C3: immediately after a successful embed run, a second run with
`force` unset is a pure no-op — the freshly persisted state matches the
recomputed current state, the decision is `(false, "up to date")`, the
target exists, and the world (in particular the target binary, hence its
size) is left byte-for-byte unchanged. -/
theorem embed_idempotent (Hc : Content → String) (Hs : String → String)
    (hlen : ∀ cc, (Hc cc).length = 16) (w wOut : World)
    (force zipOk zipcopyOk zipOk2 zipcopyOk2 : Bool) (r : String)
    (h : embed Hc Hs w force zipOk zipcopyOk = (wOut, .embedded r)) :
    embed Hc Hs wOut false zipOk2 zipcopyOk2 =
      (wOut, .skipped "up to date") := by
  unfold embed at h
  split at h
  · exact absurd (congrArg Prod.snd h) (by simp)
  rename_i hs1
  split at h
  · exact absurd (congrArg Prod.snd h) (by simp)
  rename_i hs2
  split at h
  · exact absurd (congrArg Prod.snd h) (by simp)
  rename_i oA w1 hA
  split at h
  · exact absurd (congrArg Prod.snd h) (by simp)
  rename_i oS stored hst
  split at h
  · exact absurd (congrArg Prod.snd h) (by simp)
  rename_i oN nr hnr
  split at h
  · exact absurd (congrArg Prod.snd h) (by simp)
  rename_i oP reason hP
  split at h
  · exact absurd (congrArg Prod.snd h) (by simp)
  rename_i oB b hB
  split at h
  · exact absurd (congrArg Prod.snd h) (by simp)
  split at h
  · exact absurd (congrArg Prod.snd h) (by simp)
  have hw : wOut = { w1 with
      target := some (Content.zipAppend b (w1.stdlibLib.getD [])
        (w1.defaults.getD []))
      stamp := some (.jsonRecord (toStored
        { get_current_state Hc Hs w1 with
          base_binary := compute_file_hash Hc w1.base })) } :=
    (congrArg Prod.fst h).symm
  obtain ⟨hstd, hdef⟩ := adopt_base_some w w1 hA
  have hnm : Hc b ≠ "missing" := fun hq => by
    have h16 := hlen b
    rw [hq] at h16
    exact absurd h16 (by decide)
  have hs1f : w.stdlibLib.isNone = false := by
    rcases hx : w.stdlibLib with _ | l
    · exact absurd (by rw [hx]; rfl) hs1
    · rfl
  have hs2f : w.defaults.isNone = false := by
    rcases hx : w.defaults with _ | l
    · exact absurd (by rw [hx]; rfl) hs2
    · rfl
  subst hw
  have hne : needs_embedding_run
      (get_current_state Hc Hs { w1 with
        target := some (Content.zipAppend b (w1.stdlibLib.getD [])
          (w1.defaults.getD []))
        stamp := some (.jsonRecord (toStored
          { get_current_state Hc Hs w1 with
            base_binary := compute_file_hash Hc w1.base })) })
      (some (.record (toStored
        { get_current_state Hc Hs w1 with
          base_binary := compute_file_hash Hc w1.base }))) =
      .ok (false, "up to date") := by
    simp [needs_embedding_run, needs_embedding, get_current_state, toStored,
      compute_file_hash, hB, hnm]
  refine embed_skips Hc Hs _ zipOk2 zipcopyOk2 ?_ ?_ ⟨b, ?_⟩
    (some (.record (toStored
      { get_current_state Hc Hs w1 with
        base_binary := compute_file_hash Hc w1.base }))) ?_ ?_ ?_
  · simpa [hstd] using hs1f
  · simpa [hdef] using hs2f
  · simp [hB]
  · simp [get_stored_state]
  · exact hne
  · simp

end EmbedPy

namespace EmbedPy

/-- Concrete instance of claim C3: a first embed run on a fresh world
completes, and an immediate second run with `force` unset is a no-op that
reports "up to date" and leaves the world unchanged. -/
theorem embed_idempotent_witness :
    embed (fun _ => "0123456789abcdef") (fun _ => "aaaabbbbccccdddd")
        ⟨none, some (.raw "B"), none, some [], some []⟩ false true true =
      (⟨some (.zipAppend (.raw "B") [] []), some (.raw "B"),
        some (.jsonRecord ⟨some "0123456789abcdef", some "aaaabbbbccccdddd",
          some "aaaabbbbccccdddd"⟩), some [], some []⟩,
        .embedded "no previous embed state found") ∧
    embed (fun _ => "0123456789abcdef") (fun _ => "aaaabbbbccccdddd")
        ⟨some (.zipAppend (.raw "B") [] []), some (.raw "B"),
          some (.jsonRecord ⟨some "0123456789abcdef", some "aaaabbbbccccdddd",
            some "aaaabbbbccccdddd"⟩), some [], some []⟩ false true true =
      (⟨some (.zipAppend (.raw "B") [] []), some (.raw "B"),
        some (.jsonRecord ⟨some "0123456789abcdef", some "aaaabbbbccccdddd",
          some "aaaabbbbccccdddd"⟩), some [], some []⟩,
        .skipped "up to date") := by
  have h1 : embed (fun _ => "0123456789abcdef") (fun _ => "aaaabbbbccccdddd")
      ⟨none, some (.raw "B"), none, some [], some []⟩ false true true =
    (⟨some (.zipAppend (.raw "B") [] []), some (.raw "B"),
      some (.jsonRecord ⟨some "0123456789abcdef", some "aaaabbbbccccdddd",
        some "aaaabbbbccccdddd"⟩), some [], some []⟩,
      .embedded "no previous embed state found") := by decide
  exact ⟨h1, embed_idempotent (fun _ => "0123456789abcdef")
    (fun _ => "aaaabbbbccccdddd") (fun cc => rfl)
    ⟨none, some (.raw "B"), none, some [], some []⟩
    ⟨some (.zipAppend (.raw "B") [] []), some (.raw "B"),
      some (.jsonRecord ⟨some "0123456789abcdef", some "aaaabbbbccccdddd",
        some "aaaabbbbccccdddd"⟩), some [], some []⟩
    false true true true true "no previous embed state found" h1⟩

end EmbedPy
